import Mathlib

/-!
Shallow embedding of the data-access core of the repository
(package `database`, file with `exec.Scan`, `query.Scan`, `SQL.EndTx`).

Go's `database/sql` collaborator types (`sql.Result`, `sql.Rows`, `sql.Tx`)
are modelled by their observable interface:
  * a result handle answers `RowsAffected()` and `LastInsertId()`, each a
    value or an error;
  * a row cursor has an error state observable via `Err()` before iteration
    (`initErr`), a column list via `Columns()` (possibly an error), a list
    of rows that `Next()` will deliver successfully (`data`, each row with
    its column values and the error `rows.Scan` would return on it), and a
    terminal error that `Err()` reports once `Next()` has returned false
    (`termErr`).  Per `database/sql` semantics, right after a successful
    `Next()` the cursor's `Err()` is nil: an iteration failure makes
    `Next()` return false and only then does `Err()` report it.  The
    in-loop `if x.sqlRows.Err() != nil` check of the source is therefore
    never taken and has no branch in the embedding;
  * a transaction handle answers `Rollback()` and `Commit()`, each nil or
    an error.

Side effects are made explicit in the results: which physical rows had
their values read, which destination pointers were written, whether the
cursor was closed, whether rollback/commit was attempted.  Logging never
affects control flow and is not modelled.
-/

/-- Error values of the layer: the four sentinel errors declared in the
source plus pass-through driver/infrastructure errors (kept abstract as a
numeric code).  `invalidArguments` carries the column count and the
destination count, mirroring
`fmt.Errorf("%w: [%d] columns on [%d] destinations", ...)`. -/
inductive Err where
  | dataNotFound
  | noColumnReturned
  | invalidArguments (cols dests : Nat)
  | invalidTransaction
  | driver (code : Nat)
deriving DecidableEq, Repr

/-- Model of `*sql.Tx` as observed by `EndTx`: what `Rollback()` and
`Commit()` would return. -/
structure Tx where
  rollbackErr : Option Err
  commitErr : Option Err
deriving DecidableEq, Repr

/-- Observable outcome of `SQL.EndTx`: the returned error plus which
terminal operation was attempted on the handle. -/
structure EndTxResult where
  result : Option Err
  rollbackAttempted : Bool
  commitAttempted : Bool
deriving DecidableEq, Repr

/-- Embedding of `func (SQL) EndTx(tx *sql.Tx, err error) error`.
A nil handle yields `ErrInvalidTransaction`; a non-nil `err` triggers a
rollback whose own failure only changes the log message, the original
`err` being returned; otherwise commit is attempted and its error (or
nil) returned. -/
def SQL.EndTx (tx : Option Tx) (err : Option Err) : EndTxResult :=
  match tx with
  | none =>
      { result := some .invalidTransaction
        rollbackAttempted := false
        commitAttempted := false }
  | some t =>
      match err with
      | some e =>
          -- tx.Rollback() is called; errR only augments the log message
          { result := some e
            rollbackAttempted := true
            commitAttempted := false }
      | none =>
          match t.commitErr with
          | some e =>
              { result := some e
                rollbackAttempted := false
                commitAttempted := true }
          | none =>
              { result := none
                rollbackAttempted := false
                commitAttempted := true }

/-- Model of `sql.Result`: `RowsAffected()` and `LastInsertId()` each
yield an `Int` or fail. -/
structure SqlResult where
  rowsAffected : Except Err Int
  lastInsertId : Except Err Int
deriving Repr

/-- The `exec` wrapper: a result handle (possibly nil) and the wrapped
error, as built by `SQL.Exec(sqlResult, err)`. -/
structure exec where
  sqlResult : Option SqlResult
  err : Option Err
deriving Repr

/-- Observable outcome of `exec.Scan`: the returned error and the final
contents of the two out-pointers (`none` models a nil pointer; `some v`
a pointer currently holding `v`). -/
structure ExecScanResult where
  result : Option Err
  rowsAffectedOut : Option Int
  lastInsertIDOut : Option Int
deriving DecidableEq, Repr

/-- Step 4 of `exec.Scan`: the last-insert-id block (best effort: a
retrieval failure is logged but does not fail the call) followed by the
final `return nil`. -/
def exec.scanLastInsert (res : SqlResult) (raOut liPtr : Option Int) :
    ExecScanResult :=
  match liPtr with
  | some w =>
      match res.lastInsertId with
      | .error _ => { result := none
                      rowsAffectedOut := raOut
                      lastInsertIDOut := some w }
      | .ok n => { result := none
                   rowsAffectedOut := raOut
                   lastInsertIDOut := some n }
  | none => { result := none
              rowsAffectedOut := raOut
              lastInsertIDOut := none }

/-- Embedding of `func (x exec) Scan(rowsAffected, lastInsertID *int64) error`.
`rowsAffected` / `lastInsertID` are the out-pointers with their current
pointee values (`none` = nil pointer). -/
def exec.Scan (x : exec) (rowsAffected lastInsertID : Option Int) :
    ExecScanResult :=
  match x.err with
  | some e => { result := some e
                rowsAffectedOut := rowsAffected
                lastInsertIDOut := lastInsertID }
  | none =>
  match x.sqlResult with
  | none => { result := some .dataNotFound
              rowsAffectedOut := rowsAffected
              lastInsertIDOut := lastInsertID }
  | some res =>
    -- step 3: the rows-affected block runs only for a non-nil pointer
    match rowsAffected with
    | some v =>
        match res.rowsAffected with
        | .error e => { result := some e
                        rowsAffectedOut := some v
                        lastInsertIDOut := lastInsertID }
        | .ok n =>
            if n < 1 then
              { result := some .dataNotFound
                rowsAffectedOut := some v
                lastInsertIDOut := lastInsertID }
            else
              exec.scanLastInsert res (some n) lastInsertID
    | none => exec.scanLastInsert res none lastInsertID

/-- One row a cursor can deliver: its column values and the error that
`rows.Scan` would return when binding it (`none` = binds cleanly). -/
structure Row where
  values : List Int
  scanErr : Option Err
deriving DecidableEq, Repr

/-- Model of `*sql.Rows` (see the file header for the `database/sql`
semantics adopted). -/
structure Rows where
  initErr : Option Err
  columns : List String
  columnsErr : Option Err
  data : List Row
  termErr : Option Err
deriving DecidableEq, Repr

/-- The `query` wrapper: a cursor (possibly nil) and the wrapped error,
as built by `SQL.Query(sqlRows, err)`. -/
structure query where
  sqlRows : Option Rows
  err : Option Err
deriving DecidableEq, Repr

/-- Trace of one run of the row loop of `query.Scan`:
  * `result`: the error returned (`none` = nil);
  * `calls`: per loop iteration, the physical row position under the
    cursor and the index `i` the callback was invoked with;
  * `reads`: physical positions whose column values were read
    (i.e. `rows.Scan` was called on them);
  * `writes`: destination-pointer writes `(destination id, value)`
    performed by successful bindings, in order. -/
structure LoopOut where
  result : Option Err
  calls : List (Nat × Nat)
  reads : List Nat
  writes : List (Nat × Int)
deriving DecidableEq, Repr

/-- Observable outcome of `query.Scan`: the loop trace plus whether the
cursor had been closed by the time `Scan` returned. -/
structure QueryScanResult where
  result : Option Err
  closed : Bool
  calls : List (Nat × Nat)
  reads : List Nat
  writes : List (Nat × Int)
deriving DecidableEq, Repr

/-- The `for x.sqlRows.Next()` loop of `query.Scan`.  `cols` is
`len(columns)`; the callback returns `none` for a nil Array (break),
`some []` for an empty Array (skip), `some ds` for destination-pointer
ids otherwise.  `idx` is the source's `idx`, `pos` the physical row
position.  On exhaustion the source executes `return err` where `err` is
the (nil) variable left from `Columns()` / the last successful
`rows.Scan`; the cursor's `Err()` (`termErr`) is not consulted there. -/
def scanLoop (cols : Nat) (cb : Nat → Option (List Nat)) :
    List Row → Nat → Nat → LoopOut
  | [], _, _ =>
      -- Next() returned false: `return err`, with err = nil here
      { result := none, calls := [], reads := [], writes := [] }
  | r :: rest, idx, pos =>
      -- Next() succeeded, so x.sqlRows.Err() is nil: the in-loop error
      -- check does not fire (see file header)
      match cb idx with
      | none =>
          -- row(idx) == nil: break, then `return err` (nil)
          { result := none, calls := [(pos, idx)], reads := [], writes := [] }
      | some ds =>
          if ds.length < 1 then
            -- len(row(idx)) < 1: continue, idx NOT incremented
            let o := scanLoop cols cb rest idx (pos + 1)
            { o with calls := (pos, idx) :: o.calls }
          else if ds.length ≠ cols then
            { result := some (.invalidArguments cols ds.length)
              calls := [(pos, idx)]
              reads := []
              writes := [] }
          else
            match r.scanErr with
            | some e =>
                -- rows.Scan read the row's values and failed
                { result := some e
                  calls := [(pos, idx)]
                  reads := [pos]
                  writes := [] }
            | none =>
                let o := scanLoop cols cb rest (idx + 1) (pos + 1)
                { result := o.result
                  calls := (pos, idx) :: o.calls
                  reads := pos :: o.reads
                  writes := ds.zip r.values ++ o.writes }

/-- Embedding of `func (x query) Scan(row func(i int) utils.Array) error`.
Note the order of the source: the `x.sqlRows.Err()` fail-fast check comes
BEFORE `defer x.sqlRows.Close()`, so the three returns above the defer
leave the cursor unclosed. -/
def query.Scan (x : query) (cb : Nat → Option (List Nat)) :
    QueryScanResult :=
  match x.err with
  | some e => { result := some e, closed := false
                calls := [], reads := [], writes := [] }
  | none =>
  match x.sqlRows with
  | none => { result := some .dataNotFound, closed := false
              calls := [], reads := [], writes := [] }
  | some r =>
    match r.initErr with
    | some e =>
        -- `if err := x.sqlRows.Err(); err != nil` — before the defer
        { result := some e, closed := false
          calls := [], reads := [], writes := [] }
    | none =>
        -- defer x.sqlRows.Close(): every return below closes the cursor
        match r.columnsErr with
        | some e => { result := some e, closed := true
                      calls := [], reads := [], writes := [] }
        | none =>
            if r.columns.length < 1 then
              { result := some .noColumnReturned, closed := true
                calls := [], reads := [], writes := [] }
            else
              let o := scanLoop r.columns.length cb r.data 0 0
              { result := o.result, closed := true
                calls := o.calls, reads := o.reads, writes := o.writes }

/-- C1: for every non-nil transaction handle and every non-nil error,
`EndTx` attempts a rollback and returns the original error verbatim;
this holds for every handle, in particular for handles whose rollback
itself fails (`t.rollbackErr` is universally quantified). -/
theorem EndTx_error_rolls_back_and_returns_it (t : Tx) (e : Err) :
    SQL.EndTx (some t) (some e) =
      { result := some e, rollbackAttempted := true, commitAttempted := false } :=
  rfl

/-- C4: for every non-nil transaction handle, `EndTx` with a nil error
attempts a commit and returns exactly the commit error, hence nil iff
the commit succeeded. -/
theorem EndTx_nil_error_commits (t : Tx) :
    (SQL.EndTx (some t) none).commitAttempted = true ∧
    (SQL.EndTx (some t) none).result = t.commitErr ∧
    ((SQL.EndTx (some t) none).result = none ↔ t.commitErr = none) := by
  refine ⟨?_, ?_, ?_⟩ <;> cases h : t.commitErr <;> simp [SQL.EndTx, h]

/-- C10: when neither out-pointer is supplied, `exec.Scan` on a nil
wrapped error and a non-nil result handle returns nil for every possible
handle — in particular the affected-row count is never read, so a
zero-affected (or even failing) count still yields success. -/
theorem exec_scan_no_request_is_success (res : SqlResult) :
    exec.Scan ⟨some res, none⟩ none none =
      { result := none, rowsAffectedOut := none, lastInsertIDOut := none } :=
  rfl

/-- C5: with nil wrapped error, a non-nil result handle, the affected-row
count requested, and the handle reporting a count below 1, `exec.Scan`
returns `DataNotFound` and the pointee of the rows-affected out-pointer
keeps its prior value. -/
theorem exec_scan_zero_affected_not_found (res : SqlResult) (v : Int)
    (li : Option Int) (n : Int) (hra : res.rowsAffected = .ok n) (hn : n < 1) :
    exec.Scan ⟨some res, none⟩ (some v) li =
      { result := some .dataNotFound
        rowsAffectedOut := some v
        lastInsertIDOut := li } := by
  simp [exec.Scan, hra, hn]

/-- Witness for C5 at a concrete input: a handle reporting 0 affected
rows, the out-pointer initially holding 42. -/
theorem exec_scan_zero_affected_not_found_witness :
    (⟨.ok 0, .ok 7⟩ : SqlResult).rowsAffected = .ok 0 ∧ (0 : Int) < 1 ∧
    exec.Scan ⟨some ⟨.ok 0, .ok 7⟩, none⟩ (some 42) none =
      { result := some .dataNotFound
        rowsAffectedOut := some 42
        lastInsertIDOut := none } :=
  ⟨rfl, by decide,
    exec_scan_zero_affected_not_found ⟨.ok 0, .ok 7⟩ 42 none 0 rfl (by decide)⟩

/-- C7: with nil wrapped error, a usable cursor (no pre-existing terminal
error, column resolution succeeding) and zero columns, `query.Scan`
returns `NoColumnReturned` without invoking the callback, reading any
row, or writing any destination. -/
theorem query_scan_no_columns (r : Rows) (cb : Nat → Option (List Nat))
    (hinit : r.initErr = none) (hcerr : r.columnsErr = none)
    (hcols : r.columns = []) :
    query.Scan ⟨some r, none⟩ cb =
      { result := some .noColumnReturned, closed := true
        calls := [], reads := [], writes := [] } := by
  simp [query.Scan, hinit, hcerr, hcols]

/-- Witness for C7 at a concrete input: a cursor with two pending rows
but an empty column list. -/
theorem query_scan_no_columns_witness :
    (⟨none, [], none, [⟨[1], none⟩], none⟩ : Rows).initErr = none ∧
    (⟨none, [], none, [⟨[1], none⟩], none⟩ : Rows).columnsErr = none ∧
    (⟨none, [], none, [⟨[1], none⟩], none⟩ : Rows).columns = [] ∧
    query.Scan ⟨some ⟨none, [], none, [⟨[1], none⟩], none⟩, none⟩ (fun _ => none) =
      { result := some .noColumnReturned, closed := true
        calls := [], reads := [], writes := [] } :=
  ⟨rfl, rfl, rfl,
    query_scan_no_columns ⟨none, [], none, [⟨[1], none⟩], none⟩ (fun _ => none)
      rfl rfl rfl⟩

/-- C2 counterexample: a cursor carrying a terminal error before
iteration begins.  The source returns at the `x.sqlRows.Err()` check,
which precedes `defer x.sqlRows.Close()`, so on this exit path `Scan`
returns with the cursor still open — refuting the claim that the cursor
is closed on every exit path. -/
theorem query_scan_initErr_leaves_cursor_open :
    (query.Scan ⟨some ⟨some (.driver 0), ["a"], none, [], none⟩, none⟩
        (fun _ => none)).result = some (.driver 0) ∧
    (query.Scan ⟨some ⟨some (.driver 0), ["a"], none, [], none⟩, none⟩
        (fun _ => none)).closed = false :=
  ⟨rfl, rfl⟩

/-- C2 amended: once `Scan` passes the pre-iteration `Err()` check (nil
wrapped error, non-nil cursor, no pre-existing terminal error), the
cursor is closed by the time `Scan` returns on every exit path —
column-resolution failure, zero columns, and every loop outcome. -/
theorem query_scan_closes_after_err_precheck (r : Rows)
    (cb : Nat → Option (List Nat)) (hinit : r.initErr = none) :
    (query.Scan ⟨some r, none⟩ cb).closed = true := by
  cases hc : r.columnsErr <;> simp [query.Scan, hinit, hc]
  split <;> rfl

/-- Witness for the amended C2 at a concrete input. -/
theorem query_scan_closes_after_err_precheck_witness :
    (⟨none, ["a"], none, [⟨[5], none⟩], none⟩ : Rows).initErr = none ∧
    (query.Scan ⟨some ⟨none, ["a"], none, [⟨[5], none⟩], none⟩, none⟩
        (fun _ => some [0])).closed = true :=
  ⟨rfl,
    query_scan_closes_after_err_precheck ⟨none, ["a"], none, [⟨[5], none⟩], none⟩
      (fun _ => some [0]) rfl⟩

/-- C3 (code evaluated at the failing input): a cursor that delivers no
rows and reports a terminal iteration error.  The claim (and §4.3 step 7
of the spec) requires `Scan` to return that terminal error, but after the
loop the source executes `return err` with the stale nil variable instead
of `x.sqlRows.Err()`, so the terminal error is dropped and nil is
returned. -/
theorem query_scan_exhaustion_drops_terminal_error :
    (⟨none, ["a"], none, [], some (.driver 1)⟩ : Rows).termErr =
        some (.driver 1) ∧
    (query.Scan ⟨some ⟨none, ["a"], none, [], some (.driver 1)⟩, none⟩
        (fun _ => some [0])).result = none :=
  ⟨rfl, rfl⟩

/-- C6: whenever the row loop is at index `idx` under a physical row and
the callback returns a non-empty sequence whose length differs from the
column count, the loop returns `InvalidArguments` carrying both the
column count and the destination count, after the single callback
invocation of that iteration, with no row (that one or any later one)
read and no destination written; moreover the spec's concrete scenario
(3 columns, 2 rows, a 2-length destination at row 0) yields
`InvalidArguments` with counts 3 and 2. -/
theorem query_scan_length_mismatch (cols : Nat) (cb : Nat → Option (List Nat))
    (r : Row) (rest : List Row) (idx pos : Nat) (ds : List Nat)
    (hcb : cb idx = some ds) (hne : ds.length ≠ 0) (hnc : ds.length ≠ cols) :
    scanLoop cols cb (r :: rest) idx pos =
      { result := some (.invalidArguments cols ds.length)
        calls := [(pos, idx)], reads := [], writes := [] } ∧
    query.Scan
        ⟨some ⟨none, ["a", "b", "c"], none,
          [⟨[1, 2, 3], none⟩, ⟨[4, 5, 6], none⟩], none⟩, none⟩
        (fun _ => some [7, 8]) =
      { result := some (.invalidArguments 3 2), closed := true
        calls := [(0, 0)], reads := [], writes := [] } := by
  constructor
  · simp [scanLoop, hcb, hne, hnc]
  · decide

/-- Witness for C6 at a concrete input: 3 columns, a 2-length destination
sequence at index 0. -/
theorem query_scan_length_mismatch_witness :
    (fun _ : Nat => some [7, 8]) 0 = some [7, 8] ∧
    ([7, 8] : List Nat).length ≠ 0 ∧ ([7, 8] : List Nat).length ≠ 3 ∧
    (scanLoop 3 (fun _ => some [7, 8]) [⟨[1, 2, 3], none⟩] 0 0 =
      { result := some (.invalidArguments 3 2)
        calls := [(0, 0)], reads := [], writes := [] } ∧
    query.Scan
        ⟨some ⟨none, ["a", "b", "c"], none,
          [⟨[1, 2, 3], none⟩, ⟨[4, 5, 6], none⟩], none⟩, none⟩
        (fun _ => some [7, 8]) =
      { result := some (.invalidArguments 3 2), closed := true
        calls := [(0, 0)], reads := [], writes := [] }) :=
  ⟨rfl, by decide, by decide,
    query_scan_length_mismatch 3 (fun _ => some [7, 8]) ⟨[1, 2, 3], none⟩ []
      0 0 [7, 8] rfl (by decide) (by decide)⟩

/-- C8: for a 2-column, 3-row query whose callback supplies 2-length
destinations at indices 0 and 1 and the stop sentinel at index 2,
`query.Scan` returns nil with the cursor closed, the destinations of
rows 0 and 1 receive those rows' column values in order, the values of
rows 0 and 1 only are read, and the callback is called at indices
0, 1, 2 on successive physical rows. -/
theorem query_scan_stop_sentinel_scenario (a b c d e f : Int) :
    query.Scan
        ⟨some ⟨none, ["u", "v"], none,
          [⟨[a, b], none⟩, ⟨[c, d], none⟩, ⟨[e, f], none⟩], none⟩, none⟩
        (fun i => if i = 0 then some [10, 11]
                  else if i = 1 then some [12, 13] else none) =
      { result := none, closed := true
        calls := [(0, 0), (1, 1), (2, 2)]
        reads := [0, 1]
        writes := [(10, a), (11, b), (12, c), (13, d)] } := by
  simp [query.Scan, scanLoop, List.zip]

/-- C9: when the callback yields the empty (skip) sentinel at index
`idx`, the loop consumes the physical row without reading its values or
writing any destination, keeps `idx` unchanged, and the next physical
row's iteration invokes the callback with that same `idx`; result,
reads and writes are exactly those of the continuation on the remaining
rows. -/
theorem query_scan_skip_keeps_index (cols : Nat)
    (cb : Nat → Option (List Nat)) (r r' : Row) (rest : List Row)
    (idx pos : Nat) (hcb : cb idx = some []) :
    (scanLoop cols cb (r :: r' :: rest) idx pos).calls =
        (pos, idx) :: (scanLoop cols cb (r' :: rest) idx (pos + 1)).calls ∧
    (scanLoop cols cb (r :: r' :: rest) idx pos).reads =
        (scanLoop cols cb (r' :: rest) idx (pos + 1)).reads ∧
    (scanLoop cols cb (r :: r' :: rest) idx pos).writes =
        (scanLoop cols cb (r' :: rest) idx (pos + 1)).writes ∧
    (scanLoop cols cb (r :: r' :: rest) idx pos).result =
        (scanLoop cols cb (r' :: rest) idx (pos + 1)).result ∧
    (scanLoop cols cb (r' :: rest) idx (pos + 1)).calls.head? =
        some (pos + 1, idx) := by
  refine ⟨?_, ?_, ?_, ?_, ?_⟩ <;> simp [scanLoop, hcb]

/-- Witness for C9 at a concrete input: the callback skips index 0, so
both physical rows are offered at index 0. -/
theorem query_scan_skip_keeps_index_witness :
    (fun _ : Nat => some ([] : List Nat)) 0 = some [] ∧
    ((scanLoop 1 (fun _ => some []) [⟨[1], none⟩, ⟨[2], none⟩] 0 0).calls =
        (0, 0) :: (scanLoop 1 (fun _ => some []) [⟨[2], none⟩] 0 1).calls ∧
    (scanLoop 1 (fun _ => some []) [⟨[1], none⟩, ⟨[2], none⟩] 0 0).reads =
        (scanLoop 1 (fun _ => some []) [⟨[2], none⟩] 0 1).reads ∧
    (scanLoop 1 (fun _ => some []) [⟨[1], none⟩, ⟨[2], none⟩] 0 0).writes =
        (scanLoop 1 (fun _ => some []) [⟨[2], none⟩] 0 1).writes ∧
    (scanLoop 1 (fun _ => some []) [⟨[1], none⟩, ⟨[2], none⟩] 0 0).result =
        (scanLoop 1 (fun _ => some []) [⟨[2], none⟩] 0 1).result ∧
    (scanLoop 1 (fun _ => some []) [⟨[2], none⟩] 0 1).calls.head? =
        some (1, 0)) :=
  ⟨rfl,
    query_scan_skip_keeps_index 1 (fun _ => some []) ⟨[1], none⟩ ⟨[2], none⟩ []
      0 0 rfl⟩
